import Mathlib

/-!
Shallow embedding of the `llm_router_env` package (files
`llm_router_env/models.py`, `llm_router_env/reward.py`,
`llm_router_env/traffic.py`, `llm_router_env/env.py`).

Numbers are modelled as real numbers.  The NumPy random generator is a
deterministic stream seeded once per episode; we model the draws it hands
out as explicit record fields: a standard-normal draw is an unconstrained
real `z` (the code uses `mean + std * z`), a `uniform(a, b)` draw is a real
carrying the side condition `a ≤ r ≤ b`, a beta draw carries `0 ≤ r ≤ 1`,
and an `exponential` draw carries `0 ≤ r`.  Those side conditions are
collected in `Valid` predicates on the draw records.
-/

noncomputable section

/-- NumPy `np.clip(x, lo, hi) = min(hi, max(lo, x))`. -/
def clip (lo hi x : ℝ) : ℝ := min hi (max lo x)

/-- From `models.py`: configuration for a single LLM model endpoint. -/
structure ModelConfig where
  name : String
  cost_per_call : ℝ
  latency_mean : ℝ
  latency_std : ℝ
  quality_score : ℝ

/-- From `models.py` `ModelConfig.sample_latency`:
`raw = rng.normal(latency_mean, latency_std); return max(0.01, raw)`,
with the normal draw written as `mean + std * z` for a standard-normal `z`. -/
def ModelConfig.sample_latency (m : ModelConfig) (z : ℝ) : ℝ :=
  max 0.01 (m.latency_mean + m.latency_std * z)

/-- From `models.py` `ModelConfig.sample_quality`:
`gap = 1 - quality_score; effective = 1 - gap * (0.5 + 0.5 * prompt_complexity);
noise = rng.normal(0, 0.02); return clip(effective + noise, 0, 1)`,
with the noise draw written as `0.02 * z` for a standard-normal `z`. -/
def ModelConfig.sample_quality (m : ModelConfig) (prompt_complexity z : ℝ) : ℝ :=
  let gap := 1 - m.quality_score
  let effective := 1 - gap * (0.5 + 0.5 * prompt_complexity)
  clip 0 1 (effective + 0.02 * z)

/-- From `models.py`: the five preset model tiers `DEFAULT_MODELS`. -/
def DEFAULT_MODELS : List ModelConfig :=
  [ ⟨"tier1_large", 0.030, 2.0, 0.5, 0.95⟩,
    ⟨"tier1_small", 0.003, 0.5, 0.1, 0.82⟩,
    ⟨"tier2_large", 0.015, 1.5, 0.4, 0.90⟩,
    ⟨"tier2_small", 0.001, 0.3, 0.08, 0.75⟩,
    ⟨"open_source", 0.0005, 0.8, 0.3, 0.70⟩ ]

/-- From `reward.py`: weights and thresholds for the routing reward function. -/
structure RewardConfig where
  cost_weight : ℝ
  quality_weight : ℝ
  latency_penalty : ℝ
  sla_threshold : ℝ
  quality_miss_penalty : ℝ

/-- Default values of the `RewardConfig` dataclass fields:
`cost_weight=1.0, quality_weight=0.5, latency_penalty=2.0, sla_threshold=1.0,
quality_miss_penalty=1.0`. -/
def RewardConfig.default : RewardConfig := ⟨1, 0.5, 2, 1, 1⟩

/-- From `reward.py` `compute_reward`.  In Python `quality_required` is a
keyword parameter defaulting to `0.0`; here it is passed explicitly, and a
call site that omits it (as `env.py` does) passes `0`. -/
def compute_reward (cost quality latency : ℝ) (config : RewardConfig)
    (quality_required : ℝ) : ℝ :=
  let latency_violation := max 0 (latency - config.sla_threshold);
  let quality_shortfall := max 0 (quality_required - quality);
  -config.cost_weight * cost + config.quality_weight * quality - config.latency_penalty * latency_violation - config.quality_miss_penalty * quality_shortfall

/-- From `traffic.py`: a single incoming prompt request. -/
structure PromptRequest where
  length : ℝ
  complexity : ℝ
  quality_required : ℝ

/-- From `traffic.py` `TrafficGenerator.load_factor`:
`base = 0.5 + 0.4 * sin(2 * pi * (time_of_day - 0.125)); return clip(base, 0.1, 1.0)`.
The method reads no random state: it is a pure function of `time_of_day`. -/
def TrafficGenerator.load_factor (time_of_day : ℝ) : ℝ :=
  clip 0.1 1 (0.5 + 0.4 * Real.sin (2 * Real.pi * (time_of_day - 0.125)))

/-- Random draws consumed by one call to `TrafficGenerator.sample`, in the
order the code draws them: a beta draw for complexity, a beta draw for
length, and a standard-normal draw for the quality-requirement noise
(the code uses `rng.normal(0, 0.05) = 0.05 * z`). -/
structure TrafficDraws where
  complexity_raw : ℝ
  length_raw : ℝ
  quality_z : ℝ

/-- Side conditions guaranteed by the distributions in
`TrafficGenerator.sample`: beta draws lie in `[0, 1]`. -/
def TrafficDraws.Valid (d : TrafficDraws) : Prop :=
  0 ≤ d.complexity_raw ∧ d.complexity_raw ≤ 1 ∧ 0 ≤ d.length_raw ∧ d.length_raw ≤ 1

/-- From `traffic.py` `TrafficGenerator.sample`:
`load = load_factor(time_of_day);
complexity = clip(beta_draw + (load - 0.5) * 0.2, 0, 1);
length = beta_draw;
quality_required = clip(0.5 + 0.4 * complexity + 0.1 * (load - 0.5) + normal(0, 0.05), 0, 1)`.
The beta shape parameters `complexity_alpha/beta`, `length_alpha/beta` only
parametrise the distribution of the raw draws, recorded in `TrafficDraws`. -/
def TrafficGenerator.sample (time_of_day : ℝ) (d : TrafficDraws) : PromptRequest :=
  let load := TrafficGenerator.load_factor time_of_day
  let complexity := clip 0 1 (d.complexity_raw + (load - 0.5) * 0.2)
  let len := d.length_raw
  let quality_base := 0.5 + 0.4 * complexity + 0.1 * (load - 0.5)
  let quality_required := clip 0 1 (quality_base + 0.05 * d.quality_z)
  ⟨len, complexity, quality_required⟩

/-- Construction-time configuration of `LLMRouterEnv.__init__` in `env.py`:
the tier list, reward config, `episode_length`, `budget` (stored as
`initial_budget`), and `max_queue_depth`. -/
structure EnvConfig where
  models : List ModelConfig
  reward_config : RewardConfig
  episode_length : ℕ
  initial_budget : ℝ
  max_queue_depth : ℝ

/-- From `env.py` `__init__`: `obs_dim = 2 + n_models + 2`. -/
def EnvConfig.obs_dim (cfg : EnvConfig) : ℕ := 2 + cfg.models.length + 2

/-- From `env.py` `__init__`: `action_space = spaces.Discrete(n_models)`. -/
def EnvConfig.n_actions (cfg : EnvConfig) : ℕ := cfg.models.length

/-- Configuration well-formedness used by the invariant claims, matching the
spec's data-model invariants: tier cost is nonnegative, the budget is
nonnegative, and `max_queue_depth` is at least `0.2` (the upper end of the
initial queue-depth randomization in `reset`). -/
def EnvConfig.Valid (cfg : EnvConfig) : Prop :=
  0 ≤ cfg.initial_budget ∧ 0.2 ≤ cfg.max_queue_depth ∧
    ∀ m ∈ cfg.models, 0 ≤ m.cost_per_call

/-- The mutable per-episode state of `LLMRouterEnv` (`env.py`): step counter,
budget, time of day, per-tier queue depths, and the pending request's
features.  The `_rng is None` / initialized distinction is modelled by
wrapping the state in `Option` where needed. -/
structure EnvState where
  step_count : ℕ
  budget_remaining : ℝ
  time_of_day : ℝ
  queue_depths : List ℝ
  current_prompt_length : ℝ
  current_prompt_complexity : ℝ
  current_quality_required : ℝ

/-- The episode-state invariant from the spec's data model, together with the
bookkeeping fact that the queue vector has one entry per tier and the pending
request's features are normalized. -/
def EnvState.Inv (s : EnvState) (cfg : EnvConfig) : Prop :=
  0 ≤ s.budget_remaining ∧ s.budget_remaining ≤ cfg.initial_budget ∧
  s.queue_depths.length = cfg.models.length ∧
  (∀ q ∈ s.queue_depths, 0 ≤ q ∧ q ≤ cfg.max_queue_depth) ∧
  0 ≤ s.time_of_day ∧ s.time_of_day < 1 ∧
  0 ≤ s.current_prompt_length ∧ s.current_prompt_length ≤ 1 ∧
  0 ≤ s.current_prompt_complexity ∧ s.current_prompt_complexity ≤ 1 ∧
  0 ≤ s.current_quality_required ∧ s.current_quality_required ≤ 1

/-- Random draws consumed by `reset`: `uniform(0, 1)` for the starting time
of day, `uniform(0, 0.2, size=n_models)` for the initial queue depths, and
the draws of the first `TrafficGenerator.sample` call (made inside
`_get_obs` because `step_count == 0`). -/
structure ResetDraws where
  time_of_day : ℝ
  queue_init : List ℝ
  first_prompt : TrafficDraws

/-- Side conditions guaranteed by the distributions used in `reset`.
NumPy's `uniform(0, 1)` draw lies in `[0, 1)` and `uniform(0, 0.2)` in
`[0, 0.2]`. -/
def ResetDraws.Valid (d : ResetDraws) (cfg : EnvConfig) : Prop :=
  0 ≤ d.time_of_day ∧ d.time_of_day < 1 ∧
  d.queue_init.length = cfg.models.length ∧
  (∀ q ∈ d.queue_init, 0 ≤ q ∧ q ≤ 0.2) ∧
  d.first_prompt.Valid

/-- Random draws consumed by one `step` call, in the order the code draws
them: the latency normal draw, the quality-noise normal draw, the
`exponential(2.0)` queue spike, the `uniform(0.9, 0.98, size=n_models)`
decay factors, and the draws of the trailing `TrafficGenerator.sample`. -/
structure StepDraws where
  latency_z : ℝ
  quality_z : ℝ
  queue_spike : ℝ
  decay : List ℝ
  next_prompt : TrafficDraws

/-- Side conditions guaranteed by the distributions used in `step`:
an exponential draw is nonnegative and the decay factors lie in
`[0.9, 0.98]`, one per tier. -/
def StepDraws.Valid (d : StepDraws) (cfg : EnvConfig) : Prop :=
  0 ≤ d.queue_spike ∧ d.decay.length = cfg.models.length ∧
  (∀ x ∈ d.decay, 0.9 ≤ x ∧ x ≤ 0.98) ∧ d.next_prompt.Valid

/-- From `env.py` `_get_obs` (the `step_count == 0` resampling branch only
fires during `reset` and is folded into `LLMRouterEnv.reset` below):
`[prompt_length, prompt_complexity, *clip(queue_depths / max_queue_depth, 0, 1),
time_of_day, clip(budget_remaining / initial_budget, 0, 1)]`. -/
def LLMRouterEnv.get_obs (cfg : EnvConfig) (s : EnvState) : List ℝ :=
  let queue_norm := s.queue_depths.map (fun q => clip 0 1 (q / cfg.max_queue_depth));
  let budget_norm := clip 0 1 (s.budget_remaining / cfg.initial_budget);
  [s.current_prompt_length, s.current_prompt_complexity] ++ queue_norm ++ [s.time_of_day, budget_norm]

/-- From `env.py` `reset`: fresh step counter and budget, a uniformly random
time of day, lightly loaded random queues, and the first pending request
(sampled by `_get_obs` at `step_count == 0`).  Returns the new state and
the observation; the Python info dict returned by `reset` is empty. -/
def LLMRouterEnv.reset (cfg : EnvConfig) (d : ResetDraws) : EnvState × List ℝ :=
  let prompt := TrafficGenerator.sample d.time_of_day d.first_prompt;
  let s : EnvState := ⟨0, cfg.initial_budget, d.time_of_day, d.queue_init,
    prompt.length, prompt.complexity, prompt.quality_required⟩;
  (s, LLMRouterEnv.get_obs cfg s)

/-- The info dictionary built at the end of `env.py` `step`, with its seven
keys as fields. -/
structure StepInfo where
  cost : ℝ
  quality : ℝ
  latency : ℝ
  model_name : String
  budget_remaining : ℝ
  quality_required : ℝ
  sla_violated : Bool

/-- The 5-tuple returned by `env.py` `step`. -/
structure StepResult where
  obs : List ℝ
  reward : ℝ
  terminated : Bool
  truncated : Bool
  info : StepInfo

/-- Error taxonomy for `step`: the two assertions at the top of
`env.py` `step` (`_rng is not None` and `action_space.contains(action)`). -/
inductive StepErr where
  | notInitialized : StepErr
  | invalidAction : StepErr
deriving DecidableEq

/-- The body of `env.py` `step` after its two assertions, for a valid tier
index.  Mirrors the code's statement order: sample latency/quality/cost,
decrement budget (floored at 0), bump the step counter, advance time of day
modulo 1, spike the chosen queue (capped at `max_queue_depth`) and decay all
queues, compute the reward (the call site omits `quality_required`, so the
Python default `0.0` is passed), sample the next prompt and store it, then
decide termination and assemble the observation and info. -/
def LLMRouterEnv.stepRun (cfg : EnvConfig) (s : EnvState) (a : Fin cfg.models.length)
    (d : StepDraws) : EnvState × StepResult :=
  let model := cfg.models.get a;
  let latency := model.sample_latency d.latency_z;
  let quality := model.sample_quality s.current_prompt_complexity d.quality_z;
  let cost := model.cost_per_call;
  let budget2 := max 0 (s.budget_remaining - cost);
  let count2 := s.step_count + 1;
  let time2 := Int.fract (s.time_of_day + 1 / 1440);
  let q1 := s.queue_depths.set a.1
    (min cfg.max_queue_depth (s.queue_depths.getD a.1 0 + d.queue_spike));
  let q2 := List.zipWith (fun q dc => q * dc) q1 d.decay;
  let reward := compute_reward cost quality latency cfg.reward_config 0;
  let prompt := TrafficGenerator.sample time2 d.next_prompt;
  let s2 : EnvState := ⟨count2, budget2, time2, q2,
    prompt.length, prompt.complexity, prompt.quality_required⟩;
  let terminated := decide (cfg.episode_length ≤ count2) || decide (budget2 ≤ 0);
  (s2, ⟨LLMRouterEnv.get_obs cfg s2, reward, terminated, false,
    ⟨cost, quality, latency, model.name, budget2, s2.current_quality_required,
      decide (cfg.reward_config.sla_threshold < latency)⟩⟩)

/-- `env.py` `step` including its assertions: called before any reset
(`_rng is None`, modelled as `none`) it fails with `notInitialized`; called
with an out-of-range action it fails with `invalidAction`; in both cases the
episode state is returned untouched.  Otherwise it runs `stepRun`. -/
def LLMRouterEnv.step (cfg : EnvConfig) (st : Option EnvState) (action : ℕ)
    (d : StepDraws) : Option EnvState × Except StepErr StepResult :=
  match st with
  | none => (none, Except.error StepErr.notInitialized)
  | some s =>
    if h : action < cfg.models.length then
      let r := LLMRouterEnv.stepRun cfg s ⟨action, h⟩ d;
      (some r.1, Except.ok r.2)
    else
      (some s, Except.error StepErr.invalidAction)

/-- Folds `stepRun` over an action list, collecting the observation and
reward sequences; an invalid action stops the rollout (Python would raise).
The `ℕ` argument indexes into the per-step draw stream. -/
def LLMRouterEnv.runActions (cfg : EnvConfig) :
    EnvState → (ℕ → StepDraws) → ℕ → List ℕ → List (List ℝ) × List ℝ
  | _, _, _, [] => ([], [])
  | s, sds, i, a :: rest =>
    if h : a < cfg.models.length then
      let r := LLMRouterEnv.stepRun cfg s ⟨a, h⟩ (sds i);
      let t := LLMRouterEnv.runActions cfg r.1 sds (i + 1) rest;
      (r.2.obs :: t.1, r.2.reward :: t.2)
    else ([], [])

/-- One full rollout: `reset` followed by the given actions.  A seed
determines `rd` and `sds` (the draws handed out by NumPy's seeded
generator), so the trajectory is a function of configuration, seed-derived
draws, and actions only. -/
def LLMRouterEnv.trajectory (cfg : EnvConfig) (rd : ResetDraws) (sds : ℕ → StepDraws)
    (acts : List ℕ) : List (List ℝ) × List ℝ :=
  let r0 := LLMRouterEnv.reset cfg rd;
  let t := LLMRouterEnv.runActions cfg r0.1 sds 0 acts;
  (r0.2 :: t.1, t.2)

/-- States reachable by a `reset` with distribution-respecting draws
followed by any number of valid `step` calls with such draws. -/
inductive LLMRouterEnv.Reachable (cfg : EnvConfig) : EnvState → Prop where
  | reset (d : ResetDraws) (hd : d.Valid cfg) :
      LLMRouterEnv.Reachable cfg (LLMRouterEnv.reset cfg d).1
  | step (s : EnvState) (a : Fin cfg.models.length) (d : StepDraws) (hd : d.Valid cfg)
      (hs : LLMRouterEnv.Reachable cfg s) :
      LLMRouterEnv.Reachable cfg (LLMRouterEnv.stepRun cfg s a d).1

/-- The constructor defaults of `LLMRouterEnv.__init__`:
`DEFAULT_MODELS`, default reward config, `episode_length=1000`,
`budget=10.0`, `max_queue_depth=50.0`. -/
def defaultEnv : EnvConfig := ⟨DEFAULT_MODELS, RewardConfig.default, 1000, 10, 50⟩

lemma clip_bounds (lo hi x : ℝ) (h : lo ≤ hi) : lo ≤ clip lo hi x ∧ clip lo hi x ≤ hi := by
  unfold clip
  exact ⟨le_min h (le_max_left lo x), min_le_left hi _⟩

lemma prompt_bounds (t : ℝ) (d : TrafficDraws) (hd : d.Valid) :
    0 ≤ (TrafficGenerator.sample t d).length ∧ (TrafficGenerator.sample t d).length ≤ 1 ∧
    0 ≤ (TrafficGenerator.sample t d).complexity ∧ (TrafficGenerator.sample t d).complexity ≤ 1 ∧
    0 ≤ (TrafficGenerator.sample t d).quality_required ∧
      (TrafficGenerator.sample t d).quality_required ≤ 1 := by
  obtain ⟨hc0, hc1, hl0, hl1⟩ := hd
  simp only [TrafficGenerator.sample]
  exact ⟨hl0, hl1, (clip_bounds 0 1 _ (by norm_num)).1, (clip_bounds 0 1 _ (by norm_num)).2,
    (clip_bounds 0 1 _ (by norm_num)).1, (clip_bounds 0 1 _ (by norm_num)).2⟩

lemma reset_inv (cfg : EnvConfig) (d : ResetDraws) (hc : cfg.Valid) (hd : d.Valid cfg) :
    ((LLMRouterEnv.reset cfg d).1).Inv cfg := by
  obtain ⟨hb, hmaxq, _⟩ := hc
  obtain ⟨ht0, ht1, hlen, hqi, hfp⟩ := hd
  have hp := prompt_bounds d.time_of_day d.first_prompt hfp
  simp only [LLMRouterEnv.reset, EnvState.Inv]
  refine ⟨hb, le_refl _, hlen, ?_, ht0, ht1, hp.1, hp.2.1, hp.2.2.1, hp.2.2.2.1,
    hp.2.2.2.2.1, hp.2.2.2.2.2⟩
  intro q hq
  exact ⟨(hqi q hq).1, le_trans (hqi q hq).2 hmaxq⟩

lemma set_elem_bounds (l : List ℝ) (j : ℕ) (v M : ℝ)
    (hl : ∀ q ∈ l, 0 ≤ q ∧ q ≤ M) (hv : 0 ≤ v ∧ v ≤ M) :
    ∀ q ∈ l.set j v, 0 ≤ q ∧ q ≤ M := by
  intro q hq
  rw [List.mem_iff_getElem] at hq
  obtain ⟨i, hi, rfl⟩ := hq
  rw [List.getElem_set]
  split
  · exact hv
  · exact hl _ (List.getElem_mem _)

lemma stepRun_inv (cfg : EnvConfig) (s : EnvState) (a : Fin cfg.models.length)
    (d : StepDraws) (hc : cfg.Valid) (hs : s.Inv cfg) (hd : d.Valid cfg) :
    ((LLMRouterEnv.stepRun cfg s a d).1).Inv cfg := by
  obtain ⟨hb0, hmaxq, hcost⟩ := hc
  obtain ⟨hsb0, hsb1, hslen, hsq, hst0, hst1, _, _, _, _, _, _⟩ := hs
  obtain ⟨hspike, hdlen, hdecay, hnp⟩ := hd
  have hp := prompt_bounds (Int.fract (s.time_of_day + 1 / 1440)) d.next_prompt hnp
  have hcostm : 0 ≤ (cfg.models.get a).cost_per_call := hcost _ (List.get_mem _ _ a.2)
  have h0m : (0 : ℝ) ≤ cfg.max_queue_depth := le_trans (by norm_num) hmaxq
  have ha : a.1 < s.queue_depths.length := by rw [hslen]; exact a.2
  have hqa := hsq (s.queue_depths.get ⟨a.1, ha⟩) (List.get_mem _ _ ha)
  have hset : ∀ q ∈ s.queue_depths.set a.1
      (min cfg.max_queue_depth (s.queue_depths.getD a.1 0 + d.queue_spike)),
      0 ≤ q ∧ q ≤ cfg.max_queue_depth := by
    apply set_elem_bounds _ _ _ _ hsq
    refine ⟨le_min h0m (add_nonneg ?_ hspike), min_le_left _ _⟩
    rw [List.getD_eq_getElem _ _ ha]
    exact hqa.1
  simp only [LLMRouterEnv.stepRun, EnvState.Inv]
  refine ⟨le_max_left 0 _, max_le hb0 (le_trans (sub_le_self _ hcostm) hsb1), ?_, ?_,
    Int.fract_nonneg _, Int.fract_lt_one _, hp.1, hp.2.1, hp.2.2.1, hp.2.2.2.1,
    hp.2.2.2.2.1, hp.2.2.2.2.2⟩
  · rw [List.length_zipWith, List.length_set, hslen, hdlen, min_self]
  · intro x hx
    rw [List.mem_iff_getElem] at hx
    obtain ⟨i, hi, rfl⟩ := hx
    rw [List.length_zipWith, List.length_set] at hi
    have hi2 := lt_min_iff.mp hi
    have hilen : i < (s.queue_depths.set a.1
        (min cfg.max_queue_depth (s.queue_depths.getD a.1 0 + d.queue_spike))).length := by
      rw [List.length_set]; exact hi2.1
    rw [List.getElem_zipWith]
    have hdi := hdecay (d.decay.get ⟨i, hi2.2⟩) (List.get_mem _ _ hi2.2)
    have hq1 := hset _ (List.getElem_mem hilen)
    constructor
    · exact mul_nonneg hq1.1 (le_trans (by norm_num) hdi.1)
    · exact le_trans (mul_le_of_le_one_right hq1.1 (le_trans hdi.2 (by norm_num))) hq1.2

lemma stepRun_budget_le (cfg : EnvConfig) (s : EnvState) (a : Fin cfg.models.length)
    (d : StepDraws) (hc : cfg.Valid) (hs0 : 0 ≤ s.budget_remaining) :
    ((LLMRouterEnv.stepRun cfg s a d).1).budget_remaining ≤ s.budget_remaining := by
  obtain ⟨_, _, hcost⟩ := hc
  simp only [LLMRouterEnv.stepRun]
  exact max_le hs0 (sub_le_self _ (hcost _ (List.get_mem _ _ a.2)))

lemma reachable_inv (cfg : EnvConfig) (hc : cfg.Valid) (s : EnvState)
    (h : LLMRouterEnv.Reachable cfg s) : s.Inv cfg := by
  induction h with
  | reset d hd => exact reset_inv cfg d hc hd
  | step s a d hd hs ih => exact stepRun_inv cfg s a d hc ih hd

lemma get_obs_length (cfg : EnvConfig) (s : EnvState)
    (h : s.queue_depths.length = cfg.models.length) :
    (LLMRouterEnv.get_obs cfg s).length = cfg.obs_dim := by
  simp [LLMRouterEnv.get_obs, EnvConfig.obs_dim, h]
  omega

lemma get_obs_bounds (cfg : EnvConfig) (s : EnvState) (hs : s.Inv cfg) :
    ∀ x ∈ LLMRouterEnv.get_obs cfg s, 0 ≤ x ∧ x ≤ 1 := by
  obtain ⟨_, _, _, _, hst0, hst1, hl0, hl1, hc0, hc1, _, _⟩ := hs
  intro x hx
  simp only [LLMRouterEnv.get_obs, List.mem_append, List.mem_cons, List.mem_map,
    List.mem_singleton, List.not_mem_nil, or_false] at hx
  rcases hx with ((rfl | rfl) | ⟨q, _, rfl⟩) | (rfl | rfl)
  · exact ⟨hl0, hl1⟩
  · exact ⟨hc0, hc1⟩
  · exact clip_bounds 0 1 _ (by norm_num)
  · exact ⟨hst0, le_of_lt hst1⟩
  · exact clip_bounds 0 1 _ (by norm_num)


/-- C4: for a well-formed configuration, the episode-state invariants hold
after `reset` and are preserved by every valid `step`: `budget_remaining`
stays in `[0, initial_budget]` and never increases, every queue depth stays
in `[0, max_queue_depth]`, and `time_of_day` stays in `[0, 1)`. -/
theorem episode_state_invariants (cfg : EnvConfig) (hc : cfg.Valid) :
    (∀ s, LLMRouterEnv.Reachable cfg s → s.Inv cfg) ∧
    ∀ (s : EnvState) (a : Fin cfg.models.length) (d : StepDraws),
      0 ≤ s.budget_remaining →
        ((LLMRouterEnv.stepRun cfg s a d).1).budget_remaining ≤ s.budget_remaining :=
  ⟨reachable_inv cfg hc, fun s a d h => stepRun_budget_le cfg s a d hc h⟩

/-- Witness for C4 at the default configuration and a concrete reset. -/
theorem episode_state_invariants_witness :
    ((LLMRouterEnv.reset defaultEnv ⟨0, [0, 0, 0, 0, 0], ⟨0, 0, 0⟩⟩).1).Inv defaultEnv := by
  refine (episode_state_invariants defaultEnv ?_).1 _
    (LLMRouterEnv.Reachable.reset ⟨0, [0, 0, 0, 0, 0], ⟨0, 0, 0⟩⟩ ?_)
  · refine ⟨by norm_num [defaultEnv], by norm_num [defaultEnv], ?_⟩
    intro m hm
    simp only [defaultEnv, DEFAULT_MODELS, List.mem_cons, List.not_mem_nil, or_false] at hm
    rcases hm with rfl | rfl | rfl | rfl | rfl <;> norm_num
  · refine ⟨le_refl 0, by norm_num, by simp [defaultEnv, DEFAULT_MODELS], ?_,
      by norm_num, by norm_num, by norm_num, by norm_num⟩
    intro q hq
    simp only [List.mem_cons, List.not_mem_nil, or_false] at hq
    rcases hq with rfl | rfl | rfl | rfl | rfl <;> norm_num

/-- C5: for every reachable state of a well-formed configuration, every
component of the observation vector lies in `[0, 1]`, the vector has the
fixed dimensionality `obs_dim` determined at construction, and the vectors
returned by `reset` and `step` are exactly this observation of the
resulting state. -/
theorem observation_in_unit_box (cfg : EnvConfig) (hc : cfg.Valid) (s : EnvState)
    (hs : LLMRouterEnv.Reachable cfg s) :
    (∀ x ∈ LLMRouterEnv.get_obs cfg s, 0 ≤ x ∧ x ≤ 1) ∧
    (LLMRouterEnv.get_obs cfg s).length = cfg.obs_dim ∧
    (∀ d, (LLMRouterEnv.reset cfg d).2 = LLMRouterEnv.get_obs cfg (LLMRouterEnv.reset cfg d).1) ∧
    ∀ (a : Fin cfg.models.length) (d : StepDraws),
      ((LLMRouterEnv.stepRun cfg s a d).2).obs =
        LLMRouterEnv.get_obs cfg (LLMRouterEnv.stepRun cfg s a d).1 := by
  have hinv := reachable_inv cfg hc s hs
  exact ⟨get_obs_bounds cfg s hinv, get_obs_length cfg s hinv.2.2.1,
    fun d => rfl, fun a d => rfl⟩

/-- Witness for C5 at the default configuration and a concrete reset. -/
theorem observation_in_unit_box_witness :
    (LLMRouterEnv.get_obs defaultEnv
      (LLMRouterEnv.reset defaultEnv ⟨0, [0, 0, 0, 0, 0], ⟨0, 0, 0⟩⟩).1).length =
      defaultEnv.obs_dim := by
  refine (observation_in_unit_box defaultEnv ?_ _
    (LLMRouterEnv.Reachable.reset ⟨0, [0, 0, 0, 0, 0], ⟨0, 0, 0⟩⟩ ?_)).2.1
  · refine ⟨by norm_num [defaultEnv], by norm_num [defaultEnv], ?_⟩
    intro m hm
    simp only [defaultEnv, DEFAULT_MODELS, List.mem_cons, List.not_mem_nil, or_false] at hm
    rcases hm with rfl | rfl | rfl | rfl | rfl <;> norm_num
  · refine ⟨le_refl 0, by norm_num, by simp [defaultEnv, DEFAULT_MODELS], ?_,
      by norm_num, by norm_num, by norm_num, by norm_num⟩
    intro q hq
    simp only [List.mem_cons, List.not_mem_nil, or_false] at hq
    rcases hq with rfl | rfl | rfl | rfl | rfl <;> norm_num

/-- C6: two rollouts with identical configuration, identical seed-derived
draw streams, and identical action sequences produce identical observation
and reward sequences: the trajectory is a function of configuration, seed
and actions only. -/
theorem trajectory_deterministic (cfg1 cfg2 : EnvConfig) (rd1 rd2 : ResetDraws)
    (sds1 sds2 : ℕ → StepDraws) (acts1 acts2 : List ℕ)
    (hcfg : cfg1 = cfg2) (hrd : rd1 = rd2) (hsds : sds1 = sds2) (hacts : acts1 = acts2) :
    LLMRouterEnv.trajectory cfg1 rd1 sds1 acts1 =
      LLMRouterEnv.trajectory cfg2 rd2 sds2 acts2 := by
  subst hcfg; subst hrd; subst hsds; subst hacts; rfl

/-- Witness for C6 at a concrete configuration, draws and action list. -/
theorem trajectory_deterministic_witness :
    LLMRouterEnv.trajectory defaultEnv ⟨0, [0, 0, 0, 0, 0], ⟨0, 0, 0⟩⟩
        (fun _ => ⟨0, 0, 0, [1, 1, 1, 1, 1], ⟨0, 0, 0⟩⟩) [0, 1] =
      LLMRouterEnv.trajectory defaultEnv ⟨0, [0, 0, 0, 0, 0], ⟨0, 0, 0⟩⟩
        (fun _ => ⟨0, 0, 0, [1, 1, 1, 1, 1], ⟨0, 0, 0⟩⟩) [0, 1] :=
  trajectory_deterministic _ _ _ _ _ _ _ _ rfl rfl rfl rfl

/-- C7: calling `step` before any `reset` fails with `notInitialized`, and
calling it with an action outside `[0, tier_count)` fails with
`invalidAction`; in both cases the episode state is returned unchanged. -/
theorem step_error_cases (cfg : EnvConfig) (action : ℕ) (d : StepDraws) :
    LLMRouterEnv.step cfg none action d = (none, Except.error StepErr.notInitialized) ∧
    ∀ s : EnvState, cfg.models.length ≤ action →
      LLMRouterEnv.step cfg (some s) action d =
        (some s, Except.error StepErr.invalidAction) := by
  refine ⟨rfl, ?_⟩
  intro s h
  simp only [LLMRouterEnv.step]
  rw [dif_neg (by omega)]

/-- Witness for C7: stepping the default environment before reset, and with
the out-of-range action 5. -/
theorem step_error_cases_witness :
    LLMRouterEnv.step defaultEnv none 5 ⟨0, 0, 0, [], ⟨0, 0, 0⟩⟩ =
      (none, Except.error StepErr.notInitialized) ∧
    LLMRouterEnv.step defaultEnv (some ⟨0, 10, 0, [0, 0, 0, 0, 0], 0, 0, 0⟩) 5
        ⟨0, 0, 0, [], ⟨0, 0, 0⟩⟩ =
      (some ⟨0, 10, 0, [0, 0, 0, 0, 0], 0, 0, 0⟩, Except.error StepErr.invalidAction) :=
  ⟨(step_error_cases defaultEnv 5 ⟨0, 0, 0, [], ⟨0, 0, 0⟩⟩).1,
    (step_error_cases defaultEnv 5 ⟨0, 0, 0, [], ⟨0, 0, 0⟩⟩).2 _
      (by simp [defaultEnv, DEFAULT_MODELS])⟩

/-- C8: the load factor is the stated sinusoid clipped to `[0.1, 1.0]`
(a pure function of time-of-day taking no random source); its value at the
peak phase 0.375 is 0.9, its value at the trough phase 0.875 is 0.1, the
peak value strictly exceeds the trough value, and every value lies in
`[0.1, 1.0]`. -/
theorem load_factor_shape :
    (∀ t : ℝ, TrafficGenerator.load_factor t =
      clip 0.1 1 (0.5 + 0.4 * Real.sin (2 * Real.pi * (t - 0.125)))) ∧
    TrafficGenerator.load_factor 0.375 = 0.9 ∧
    TrafficGenerator.load_factor 0.875 = 0.1 ∧
    TrafficGenerator.load_factor 0.875 < TrafficGenerator.load_factor 0.375 ∧
    ∀ t : ℝ, 0.1 ≤ TrafficGenerator.load_factor t ∧ TrafficGenerator.load_factor t ≤ 1 := by
  have hpeak : TrafficGenerator.load_factor 0.375 = 0.9 := by
    unfold TrafficGenerator.load_factor
    rw [show 2 * Real.pi * ((0.375 : ℝ) - 0.125) = Real.pi / 2 by
      rw [show (0.375 : ℝ) - 0.125 = 1 / 4 by norm_num]; ring]
    rw [Real.sin_pi_div_two]
    unfold clip
    norm_num
  have htrough : TrafficGenerator.load_factor 0.875 = 0.1 := by
    unfold TrafficGenerator.load_factor
    rw [show 2 * Real.pi * ((0.875 : ℝ) - 0.125) = Real.pi / 2 + Real.pi by
      rw [show (0.875 : ℝ) - 0.125 = 3 / 4 by norm_num]; ring]
    rw [Real.sin_add_pi, Real.sin_pi_div_two]
    unfold clip
    norm_num
  refine ⟨fun t => rfl, hpeak, htrough, ?_, ?_⟩
  · rw [hpeak, htrough]; norm_num
  · intro t
    unfold TrafficGenerator.load_factor
    exact clip_bounds 0.1 1 _ (by norm_num)

/-- C9: sampled latency is floored at 0.01 with no upper cap (any raw draw
at or above the floor is returned unchanged), and for complexity in
`[0, 1]` the sampled quality is the complexity-amplified base quality plus
Gaussian noise clipped to `[0, 1]`, hence always lies in `[0, 1]`. -/
theorem sample_outcome_ranges (m : ModelConfig) (z c zq : ℝ) :
    0.01 ≤ m.sample_latency z ∧
    (0.01 ≤ m.latency_mean + m.latency_std * z →
      m.sample_latency z = m.latency_mean + m.latency_std * z) ∧
    (0 ≤ c → c ≤ 1 →
      m.sample_quality c zq =
        clip 0 1 (1 - (1 - m.quality_score) * (0.5 + 0.5 * c) + 0.02 * zq)) ∧
    0 ≤ m.sample_quality c zq ∧ m.sample_quality c zq ≤ 1 := by
  refine ⟨le_max_left _ _, fun h => max_eq_right h, fun _ _ => rfl, ?_, ?_⟩
  · exact (clip_bounds 0 1 _ (by norm_num)).1
  · exact (clip_bounds 0 1 _ (by norm_num)).2

/-- Witness for C9 at a concrete model, raw draws and complexity. -/
theorem sample_outcome_ranges_witness :
    (⟨"m", 0, 2, 0, 0.5⟩ : ModelConfig).sample_latency 0 = 2 ∧
    (⟨"m", 0, 2, 0, 0.5⟩ : ModelConfig).sample_quality 1 0 =
      clip 0 1 (1 - (1 - 0.5) * (0.5 + 0.5 * 1) + 0.02 * 0) := by
  have h := sample_outcome_ranges ⟨"m", 0, 2, 0, 0.5⟩ 0 1 0
  constructor
  · have h2 := h.2.1 (by norm_num)
    rw [h2]; norm_num
  · exact h.2.2.1 (by norm_num) (by norm_num)

/-- C3: `reset` starts the step counter at 0 and each step increments it by
one; after every step, `terminated` is true iff the new step count has
reached `episode_length` or the new budget is at most 0, and `truncated` is
always false; hence with `episode_length = 20` and a budget still positive
after the step, during an episode (new step count at most 20) `terminated`
is true exactly on the 20th step and false on steps 1..19. -/
theorem step_termination_iff (cfg : EnvConfig) :
    (∀ rd, ((LLMRouterEnv.reset cfg rd).1).step_count = 0) ∧
    ∀ (s : EnvState) (a : Fin cfg.models.length) (d : StepDraws),
      ((LLMRouterEnv.stepRun cfg s a d).1).step_count = s.step_count + 1 ∧
      (((LLMRouterEnv.stepRun cfg s a d).2).terminated = true ↔
        (cfg.episode_length ≤ s.step_count + 1 ∨
          ((LLMRouterEnv.stepRun cfg s a d).1).budget_remaining ≤ 0)) ∧
      ((LLMRouterEnv.stepRun cfg s a d).2).truncated = false ∧
      (cfg.episode_length = 20 →
        0 < ((LLMRouterEnv.stepRun cfg s a d).1).budget_remaining →
        s.step_count + 1 ≤ 20 →
        (((LLMRouterEnv.stepRun cfg s a d).2).terminated = true ↔
          s.step_count + 1 = 20)) := by
  refine ⟨fun rd => rfl, ?_⟩
  intro s a d
  refine ⟨rfl, ?_, rfl, ?_⟩
  · simp only [LLMRouterEnv.stepRun, Bool.or_eq_true, decide_eq_true_eq]
  · intro h20 hpos hle
    simp only [LLMRouterEnv.stepRun, Bool.or_eq_true, decide_eq_true_eq] at hpos ⊢
    rw [h20]
    constructor
    · rintro (h | h)
      · omega
      · exact absurd h (not_le.mpr hpos)
    · intro h
      exact Or.inl (by omega)

/-- Witness for C3: in a 20-step default-model episode with ample budget,
the step taken from step count 19 terminates the episode. -/
theorem step_termination_iff_witness :
    ((LLMRouterEnv.stepRun ⟨DEFAULT_MODELS, RewardConfig.default, 20, 10, 50⟩
      ⟨19, 10, 0, [0, 0, 0, 0, 0], 0, 0, 0⟩ ⟨0, by simp [DEFAULT_MODELS]⟩
      ⟨0, 0, 0, [1, 1, 1, 1, 1], ⟨0, 0, 0⟩⟩).2).terminated = true := by
  have h := (step_termination_iff ⟨DEFAULT_MODELS, RewardConfig.default, 20, 10, 50⟩).2
    ⟨19, 10, 0, [0, 0, 0, 0, 0], 0, 0, 0⟩ ⟨0, by simp [DEFAULT_MODELS]⟩
    ⟨0, 0, 0, [1, 1, 1, 1, 1], ⟨0, 0, 0⟩⟩
  refine (h.2.2.2 rfl ?_ (by norm_num)).mpr rfl
  simp only [LLMRouterEnv.stepRun, DEFAULT_MODELS, List.get]
  norm_num [lt_max_iff]

/-- C10: the observation vector is
`[prompt length, prompt complexity, k normalized queue depths, time of day,
normalized budget]` with `2 + k + 2` components for `k` configured tiers, it
does not depend on the pending request's quality requirement, the action
space size equals `k`, and for the five default tiers there are 5 actions
and 9 observation components. -/
theorem observation_layout (cfg : EnvConfig) (s : EnvState) (x : ℝ) :
    LLMRouterEnv.get_obs cfg s =
      [s.current_prompt_length, s.current_prompt_complexity] ++
        s.queue_depths.map (fun q => clip 0 1 (q / cfg.max_queue_depth)) ++
        [s.time_of_day, clip 0 1 (s.budget_remaining / cfg.initial_budget)] ∧
    (s.queue_depths.length = cfg.models.length →
      (LLMRouterEnv.get_obs cfg s).length = 2 + cfg.models.length + 2) ∧
    LLMRouterEnv.get_obs cfg
      ⟨s.step_count, s.budget_remaining, s.time_of_day, s.queue_depths,
        s.current_prompt_length, s.current_prompt_complexity, x⟩ =
      LLMRouterEnv.get_obs cfg s ∧
    cfg.obs_dim = 2 + cfg.n_actions + 2 ∧
    defaultEnv.n_actions = 5 ∧ defaultEnv.obs_dim = 9 := by
  refine ⟨rfl, ?_, rfl, rfl, rfl, rfl⟩
  intro h
  have := get_obs_length cfg s h
  rwa [EnvConfig.obs_dim] at this

/-- Witness for C10 at the default configuration and a concrete state. -/
theorem observation_layout_witness :
    (LLMRouterEnv.get_obs defaultEnv ⟨0, 10, 0, [0, 0, 0, 0, 0], 0, 0, 0⟩).length =
      2 + defaultEnv.models.length + 2 :=
  (observation_layout defaultEnv ⟨0, 10, 0, [0, 0, 0, 0, 0], 0, 0, 0⟩ 0).2.1
    (by simp [defaultEnv, DEFAULT_MODELS])

/-- C2 (amended): the info mapping returned by `step` contains the cost,
quality and latency of the sampled outcome, the chosen tier name, the
updated budget, an SLA-violation flag that is true exactly when the sampled
latency strictly exceeds `sla_threshold`, and under the key
`quality_required` the quality requirement of the *next* pending request
(the one sampled at the end of this step and stored in the new state), not
that of the just-served request. -/
theorem step_info_contents (cfg : EnvConfig) (s : EnvState) (a : Fin cfg.models.length)
    (d : StepDraws) :
    ((LLMRouterEnv.stepRun cfg s a d).2).info.cost = (cfg.models.get a).cost_per_call ∧
    ((LLMRouterEnv.stepRun cfg s a d).2).info.quality =
      (cfg.models.get a).sample_quality s.current_prompt_complexity d.quality_z ∧
    ((LLMRouterEnv.stepRun cfg s a d).2).info.latency =
      (cfg.models.get a).sample_latency d.latency_z ∧
    ((LLMRouterEnv.stepRun cfg s a d).2).info.model_name = (cfg.models.get a).name ∧
    ((LLMRouterEnv.stepRun cfg s a d).2).info.budget_remaining =
      ((LLMRouterEnv.stepRun cfg s a d).1).budget_remaining ∧
    ((LLMRouterEnv.stepRun cfg s a d).2).info.quality_required =
      ((LLMRouterEnv.stepRun cfg s a d).1).current_quality_required ∧
    (((LLMRouterEnv.stepRun cfg s a d).2).info.sla_violated = true ↔
      cfg.reward_config.sla_threshold <
        ((LLMRouterEnv.stepRun cfg s a d).2).info.latency) := by
  refine ⟨rfl, rfl, rfl, rfl, rfl, rfl, ?_⟩
  simp only [LLMRouterEnv.stepRun, decide_eq_true_eq]

/-- Example configuration for concrete step evaluations: one zero-cost tier
with base quality 0.5 and deterministic latency 1, and a reward config whose
only nonzero coefficient is `quality_miss_penalty = 5`. -/
def exCfg : EnvConfig := ⟨[⟨"m", 0, 1, 0, 0.5⟩], ⟨0, 0, 0, 1, 5⟩, 10, 1, 50⟩

/-- Action 0 as a valid tier index of `exCfg`. -/
def exAction : Fin exCfg.models.length := ⟨0, by simp [exCfg]⟩

/-- Example running state: pending request of complexity 1 and quality
requirement 0.8. -/
def exState : EnvState := ⟨0, 1, 0, [0], 0, 1, 0.8⟩

/-- Example step draws with all noise at zero. -/
def exDraws : StepDraws := ⟨0, 0, 0, [1], ⟨0, 0, 0⟩⟩

/-- C1: the reward returned by `step` is NOT the claimed four-term formula
evaluated at the just-served request's quality requirement: `env.py` calls
`compute_reward` without `quality_required`, so the Python default `0.0` is
used and the quality-shortfall penalty is never applied.  Concretely, with
`quality_miss_penalty = 5`, sampled quality `1/2` and served requirement
`0.8`, the code returns reward `0` while the claimed formula gives `-3/2`.
This contradicts the repository's own test
`test_quality_miss_penalty_in_env`. -/
theorem step_reward_omits_quality_requirement :
    ((LLMRouterEnv.stepRun exCfg exState exAction exDraws).2).reward = 0 ∧
    compute_reward ((LLMRouterEnv.stepRun exCfg exState exAction exDraws).2).info.cost
      ((LLMRouterEnv.stepRun exCfg exState exAction exDraws).2).info.quality
      ((LLMRouterEnv.stepRun exCfg exState exAction exDraws).2).info.latency
      exCfg.reward_config exState.current_quality_required = -(3 / 2) ∧
    ((LLMRouterEnv.stepRun exCfg exState exAction exDraws).2).reward ≠
      compute_reward ((LLMRouterEnv.stepRun exCfg exState exAction exDraws).2).info.cost
        ((LLMRouterEnv.stepRun exCfg exState exAction exDraws).2).info.quality
        ((LLMRouterEnv.stepRun exCfg exState exAction exDraws).2).info.latency
        exCfg.reward_config exState.current_quality_required := by
  have hinfo : ((LLMRouterEnv.stepRun exCfg exState exAction exDraws).2).info.cost = 0 ∧
      ((LLMRouterEnv.stepRun exCfg exState exAction exDraws).2).info.quality = 1 / 2 ∧
      ((LLMRouterEnv.stepRun exCfg exState exAction exDraws).2).info.latency = 1 := by
    refine ⟨?_, ?_, ?_⟩ <;>
      norm_num [LLMRouterEnv.stepRun, exCfg, exState, exAction, exDraws,
        ModelConfig.sample_quality, ModelConfig.sample_latency, clip, min_def, max_def]
  have hrew : ((LLMRouterEnv.stepRun exCfg exState exAction exDraws).2).reward = 0 := by
    norm_num [LLMRouterEnv.stepRun, exCfg, exState, exAction, exDraws, compute_reward,
      ModelConfig.sample_quality, ModelConfig.sample_latency, clip, min_def, max_def]
  refine ⟨hrew, ?_, ?_⟩
  · rw [hinfo.1, hinfo.2.1, hinfo.2.2]
    norm_num [compute_reward, exCfg, exState, max_def]
  · rw [hrew, hinfo.1, hinfo.2.1, hinfo.2.2]
    norm_num [compute_reward, exCfg, exState, max_def]

/-- Example running state one simulated minute before the traffic peak
(time of day `539/1440`), with pending request quality requirement 0.8. -/
def exState2 : EnvState := ⟨0, 1, 539 / 1440, [0], 0, 1, 0.8⟩

/-- C2 counterexample: the `quality_required` entry of the info mapping is
the quality requirement of the NEXT pending request (sampled after the step
advances time to the traffic peak 3/8, giving `0.572` with all noise zero),
not that of the just-served request (`0.8`). -/
theorem step_info_reports_next_quality_required :
    ((LLMRouterEnv.stepRun exCfg exState2 exAction exDraws).2).info.quality_required =
      0.572 ∧
    exState2.current_quality_required = 0.8 ∧ ((0.572 : ℝ) ≠ 0.8) := by
  refine ⟨?_, by norm_num [exState2], by norm_num⟩
  have ht : Int.fract (exState2.time_of_day + 1 / 1440) = 3 / 8 := by
    rw [show exState2.time_of_day + 1 / 1440 = 3 / 8 by norm_num [exState2]]
    exact Int.fract_eq_self.mpr (by norm_num)
  have hsin : Real.sin (2 * Real.pi * ((3 : ℝ) / 8 - 0.125)) = 1 := by
    rw [show (3 : ℝ) / 8 - 0.125 = 1 / 4 by norm_num,
      show 2 * Real.pi * ((1 : ℝ) / 4) = Real.pi / 2 by ring]
    exact Real.sin_pi_div_two
  simp only [LLMRouterEnv.stepRun]
  rw [ht]
  simp only [TrafficGenerator.sample, TrafficGenerator.load_factor, exDraws]
  rw [hsin]
  norm_num [clip, min_def, max_def]
